import Mathlib

/-!
Verification development for the upload-manager, converter-statistics,
downloader and S3-provider cores of the whats-convert-api service.

The Go source is shallowly embedded: each Go method that the properties
below speak about is translated into a pure Lean function over an explicit
state record.  Machine integers (`int`, `int64`, `time.Duration`) are
modelled as `Int`; Go integer division truncates toward zero, which is
`Int.tdiv` in Lean (never `/`, which is Euclidean here).  Go functions that
return `(value, error)` pairs are modelled with `Option`/`Except`; a Go
nil-pointer dereference (a runtime panic) is modelled by the dedicated
`GoResult.panicked` constructor.
-/

/-- Outcome of running a piece of Go code that may panic at runtime. -/
inductive GoResult (α : Type) where
  | ok : α → GoResult α
  | panicked : GoResult α
deriving DecidableEq, Repr

/-! ## Upload manager (services/upload_manager.go)

`UploadStatus`, `UploadInfo` and `UploadManager` mirror the Go structures;
only the fields the lifecycle logic reads or writes are kept (times are
modelled as a Boolean recording whether `EndTime` was set, since no
property below depends on clock values). -/

/-- Translation of the Go `UploadStatus` string enumeration. -/
inductive UploadStatus where
  | pending
  | uploading
  | completed
  | failed
  | cancelled
deriving DecidableEq, Repr

/-- Translation of the mutable per-upload record `UploadInfo`.
`endTimeSet` models whether `EndTime` is non-nil, `errorSet` whether the
`Error` string is non-empty, and `resultSize` the `Result.Size` of a
completed upload (`none` while `Result` is nil). -/
structure UploadInfo where
  status : UploadStatus
  bytesTransferred : Int
  totalBytes : Int
  endTimeSet : Bool
  errorSet : Bool
  resultSize : Option Int
deriving DecidableEq, Repr

/-- Translation of the `UploadManager` state: the `uploads` map (an
association list keyed by upload id), `maxConcurrent` and the
`currentUploads` counter.  `currentUploads` is a Go `int`, hence `Int`:
the embedding must be able to represent a negative counter. -/
structure UploadManager where
  uploads : List (Nat × UploadInfo)
  maxConcurrent : Int
  currentUploads : Int
deriving DecidableEq, Repr

/-- Errors the upload-manager methods return (`fmt.Errorf` sites). -/
inductive UMError where
  | maxConcurrentReached
  | uploadNotFound
  | cannotCancelInStatus (s : UploadStatus)
deriving DecidableEq, Repr

namespace UploadManager

/-- Go map read `um.uploads[uploadID]`. -/
def lookupUpload (um : UploadManager) (id : Nat) : Option UploadInfo :=
  um.uploads.lookup id

/-- Go map write `um.uploads[uploadID] = info` (and, through a record
pointer, any in-place mutation of the record stored under `id`). -/
def setUpload (um : UploadManager) (id : Nat) (info : UploadInfo) : UploadManager :=
  { um with uploads := (id, info) :: um.uploads.filter (fun p => p.1 ≠ id) }

/-- Translation of `UploadManager.StartUpload`: if
`currentUploads >= maxConcurrent`, fail with the capacity error and leave
the state untouched; otherwise increment `currentUploads` and register a
fresh Pending record (`id` stands for the fresh UUID) with
`TotalBytes = size`.  Returns the new state and either the admitted id or
the error. -/
def StartUpload (um : UploadManager) (id : Nat) (size : Int) :
    UploadManager × Except UMError Nat :=
  if um.maxConcurrent ≤ um.currentUploads then
    (um, .error .maxConcurrentReached)
  else
    let um := { um with currentUploads := um.currentUploads + 1 }
    let info : UploadInfo :=
      { status := .pending, bytesTransferred := 0, totalBytes := size,
        endTimeSet := false, errorSet := false, resultSize := none }
    (um.setUpload id info, .ok id)

/-- Translation of `UploadManager.StartBase64Upload`: identical admission
logic; `TotalBytes` is seeded with the encoded length (an approximation). -/
def StartBase64Upload (um : UploadManager) (id : Nat) (base64Len : Int) :
    UploadManager × Except UMError Nat :=
  if um.maxConcurrent ≤ um.currentUploads then
    (um, .error .maxConcurrentReached)
  else
    let um := { um with currentUploads := um.currentUploads + 1 }
    let info : UploadInfo :=
      { status := .pending, bytesTransferred := 0, totalBytes := base64Len,
        endTimeSet := false, errorSet := false, resultSize := none }
    (um.setUpload id info, .ok id)

/-- Translation of `UploadManager.CancelUpload`: not-found lookup error;
reject only when the record is Completed or Failed; otherwise set status
Cancelled, record the end time, and decrement `currentUploads`.  On an
error return the Go method has mutated nothing. -/
def CancelUpload (um : UploadManager) (id : Nat) :
    UploadManager × Option UMError :=
  match um.lookupUpload id with
  | none => (um, some .uploadNotFound)
  | some info =>
    if info.status = .completed ∨ info.status = .failed then
      (um, some (.cannotCancelInStatus info.status))
    else
      let um := um.setUpload id
        { info with status := .cancelled, endTimeSet := true }
      ({ um with currentUploads := um.currentUploads - 1 }, none)

/-- First action of the worker goroutine `performUpload` (and
`performBase64Upload`): unconditionally set the record's status to
Uploading before the provider call. -/
def performUploadBegin (um : UploadManager) (id : Nat) : UploadManager :=
  match um.lookupUpload id with
  | none => um
  | some info => um.setUpload id { info with status := .uploading }

/-- Tail of the worker goroutine `performUpload` once the provider call
has returned: unconditionally set `EndTime` and overwrite the status with
Failed (on error) or Completed (on success, also recording the result
size and progress), then run the deferred `currentUploads--`.  The Go
code guards none of these writes on the current status. -/
def performUploadFinish (um : UploadManager) (id : Nat)
    (success : Bool) (resultSize : Int) : UploadManager :=
  let um :=
    match um.lookupUpload id with
    | none => um
    | some info =>
      if success then
        um.setUpload id
          { info with status := .completed, endTimeSet := true,
                      resultSize := some resultSize,
                      bytesTransferred := resultSize }
      else
        um.setUpload id
          { info with status := .failed, endTimeSet := true, errorSet := true }
  { um with currentUploads := um.currentUploads - 1 }

end UploadManager

/-! Concrete lifecycle traces used to evaluate the manager code.  Ids are
arbitrary; `0` stands for the UUID of the single upload involved. -/

/-- A manager configured with `maxConcurrent = 1` and no uploads yet. -/
def um0 : UploadManager :=
  { uploads := [], maxConcurrent := 1, currentUploads := 0 }

/-- State after `StartUpload` admits upload `0` (Pending, counter 1). -/
def umStarted : UploadManager := (um0.StartUpload 0 100).1

/-- State after the worker has moved upload `0` to Uploading. -/
def umUploading : UploadManager := umStarted.performUploadBegin 0

/-- State after `CancelUpload 0` succeeds on the Uploading record:
status Cancelled, counter decremented back to 0. -/
def umCancelled : UploadManager := (umUploading.CancelUpload 0).1

/-- State after the worker's provider call returns (with the
context-cancelled error) and the worker runs its unconditional
status-write and deferred decrement on the already-cancelled record. -/
def umAfterWorkerExit : UploadManager := umCancelled.performUploadFinish 0 false 0

/-- A manager configured with `maxConcurrent = 1` already holding one
admitted upload (counter at capacity). -/
def umAtCapacity : UploadManager :=
  { uploads := [], maxConcurrent := 1, currentUploads := 1 }

/-- C1: the claim says `currentUploads` is decremented exactly once in
total per record, the worker skipping its decrement when the cancellation
path has already decremented.  Evaluating the code on a cancel-in-flight
trace refutes this: `CancelUpload` brings the counter back to 0 and the
worker's deferred decrement then runs unconditionally, driving the
counter to -1 (two decrements for one admission). -/
theorem uploadManager_worker_decrements_after_cancel_already_did :
    umCancelled.currentUploads = 0 ∧ umAfterWorkerExit.currentUploads = -1 := by
  decide

/-- C2: the claim says a record Cancel has moved to Cancelled is never
rewritten by the worker.  Evaluating the code on the cancel-in-flight
trace refutes this: the record is Cancelled after `CancelUpload`, yet
after the worker's provider call returns with an error the unconditional
status write in `performUpload` leaves the record Failed. -/
theorem uploadManager_worker_rewrites_cancelled_status :
    (umCancelled.lookupUpload 0).map UploadInfo.status = some .cancelled ∧
    (umAfterWorkerExit.lookupUpload 0).map UploadInfo.status = some .failed := by
  decide

/-- C3: the claim says the second of two Cancels on a Pending/Uploading
record fails with a cannot-cancel-terminal error and does not modify
state.  Evaluating the code refutes this: `CancelUpload` rejects only
Completed and Failed, so the second Cancel on the now-Cancelled record
succeeds again and decrements `currentUploads` a second time. -/
theorem uploadManager_second_cancel_succeeds_and_mutates :
    (umUploading.CancelUpload 0).2 = none ∧
    (umCancelled.CancelUpload 0).2 = none ∧
    (umCancelled.CancelUpload 0).1.currentUploads = -1 := by
  decide

/-- C4: `StartUpload` and `StartBase64Upload` admit an upload exactly when
`currentUploads < maxConcurrent`; at capacity they fail with the
capacity-reached error leaving the state (records and counter) untouched,
and on admission they increment the counter and register a Pending
record. -/
theorem uploadManager_start_capacity_gate (um : UploadManager) (id : Nat)
    (size b64 : Int) :
    (um.maxConcurrent ≤ um.currentUploads →
      um.StartUpload id size = (um, .error .maxConcurrentReached) ∧
      um.StartBase64Upload id b64 = (um, .error .maxConcurrentReached)) ∧
    (um.currentUploads < um.maxConcurrent →
      (um.StartUpload id size).2 = .ok id ∧
      (um.StartUpload id size).1.currentUploads = um.currentUploads + 1 ∧
      (um.StartUpload id size).1.lookupUpload id =
        some { status := .pending, bytesTransferred := 0, totalBytes := size,
               endTimeSet := false, errorSet := false, resultSize := none } ∧
      (um.StartBase64Upload id b64).2 = .ok id ∧
      (um.StartBase64Upload id b64).1.currentUploads = um.currentUploads + 1) := by
  constructor
  · intro h
    simp [UploadManager.StartUpload, UploadManager.StartBase64Upload, h]
  · intro h
    have h' : ¬ um.maxConcurrent ≤ um.currentUploads := by omega
    simp [UploadManager.StartUpload, UploadManager.StartBase64Upload,
      UploadManager.setUpload, UploadManager.lookupUpload, h', List.lookup]

/-- Witness for the capacity gate: at capacity the start call is rejected
with the state unchanged; below capacity upload `0` is admitted. -/
theorem uploadManager_start_capacity_gate_witness :
    umAtCapacity.StartUpload 1 5 = (umAtCapacity, .error .maxConcurrentReached) ∧
    (um0.StartUpload 0 100).2 = .ok 0 ∧
    (um0.StartUpload 0 100).1.currentUploads = 1 :=
  ⟨((uploadManager_start_capacity_gate umAtCapacity 1 5 5).1 (by decide)).1,
   ((uploadManager_start_capacity_gate um0 0 100 5).2 (by decide)).1,
   ((uploadManager_start_capacity_gate um0 0 100 5).2 (by decide)).2.1⟩

/-! ## Subsystem statistics (converters, downloader, S3 service)

Counters are Go `int64` and durations `time.Duration` (an `int64` of
nanoseconds); both are modelled as `Int`, with Go's truncating division
rendered as `Int.tdiv`. -/

/-- Translation of `AudioConverterStats`. -/
structure AudioConverterStats where
  totalConversions : Int
  failedConversions : Int
  avgConversionTime : Int
deriving DecidableEq, Repr

/-- Translation of `AudioConverter.recordSuccess`: bump the total counter
and fold the sample into the average (seed when the average is zero,
otherwise `(avg*9 + duration) / 10`). -/
def AudioConverter.recordSuccess (s : AudioConverterStats) (duration : Int) :
    AudioConverterStats :=
  let s := { s with totalConversions := s.totalConversions + 1 }
  if s.avgConversionTime = 0 then
    { s with avgConversionTime := duration }
  else
    { s with avgConversionTime := (s.avgConversionTime * 9 + duration).tdiv 10 }

/-- Translation of `AudioConverter.recordFailure`. -/
def AudioConverter.recordFailure (s : AudioConverterStats) : AudioConverterStats :=
  { s with totalConversions := s.totalConversions + 1,
           failedConversions := s.failedConversions + 1 }

/-- Translation of `ImageConverterStats`. -/
structure ImageConverterStats where
  totalConversions : Int
  failedConversions : Int
  avgConversionTime : Int
  vipsConversions : Int
  ffmpegConversions : Int
deriving DecidableEq, Repr

/-- Translation of `ImageConverter.updateAvgTime`. -/
def ImageConverter.updateAvgTime (s : ImageConverterStats) (duration : Int) :
    ImageConverterStats :=
  if s.avgConversionTime = 0 then
    { s with avgConversionTime := duration }
  else
    { s with avgConversionTime := (s.avgConversionTime * 9 + duration).tdiv 10 }

/-- Translation of `ImageConverter.recordVipsSuccess`. -/
def ImageConverter.recordVipsSuccess (s : ImageConverterStats) (duration : Int) :
    ImageConverterStats :=
  ImageConverter.updateAvgTime
    { s with totalConversions := s.totalConversions + 1,
             vipsConversions := s.vipsConversions + 1 } duration

/-- Translation of `ImageConverter.recordFFmpegSuccess`. -/
def ImageConverter.recordFFmpegSuccess (s : ImageConverterStats) (duration : Int) :
    ImageConverterStats :=
  ImageConverter.updateAvgTime
    { s with totalConversions := s.totalConversions + 1,
             ffmpegConversions := s.ffmpegConversions + 1 } duration

/-- Translation of `ImageConverter.recordFailure`. -/
def ImageConverter.recordFailure (s : ImageConverterStats) : ImageConverterStats :=
  { s with totalConversions := s.totalConversions + 1,
           failedConversions := s.failedConversions + 1 }

/-- Translation of `DownloaderStats`. -/
structure DownloaderStats where
  totalDownloads : Int
  failedDownloads : Int
  totalBytes : Int
  avgDownloadTime : Int
deriving DecidableEq, Repr

/-- Translation of `Downloader.recordSuccess`. -/
def Downloader.recordSuccess (s : DownloaderStats) (bytes duration : Int) :
    DownloaderStats :=
  let s := { s with totalDownloads := s.totalDownloads + 1,
                    totalBytes := s.totalBytes + bytes }
  if s.avgDownloadTime = 0 then
    { s with avgDownloadTime := duration }
  else
    { s with avgDownloadTime := (s.avgDownloadTime * 9 + duration).tdiv 10 }

/-- Translation of `Downloader.recordFailure`. -/
def Downloader.recordFailure (s : DownloaderStats) : DownloaderStats :=
  { s with totalDownloads := s.totalDownloads + 1,
           failedDownloads := s.failedDownloads + 1 }

/-- Translation of `S3Stats`; `lastUpload` holds the wall-clock value that
`time.Now()` produced, passed in as the `now` argument below. -/
structure S3Stats where
  totalUploads : Int
  successfulUploads : Int
  failedUploads : Int
  totalBytes : Int
  averageUploadTime : Int
  lastUpload : Int
deriving DecidableEq, Repr

/-- Translation of `S3Service.updateStats`: a no-op when metrics are
disabled; otherwise bump the total counter and timestamp, and on success
bump the success counters and fold the upload time into the average with
`(avg + uploadTime) / 2` (seeded when the average is zero). -/
def S3Service.updateStats (enableMetrics : Bool) (s : S3Stats)
    (uploadTime bytes now : Int) (success : Bool) : S3Stats :=
  if !enableMetrics then s
  else
    let s := { s with totalUploads := s.totalUploads + 1, lastUpload := now }
    if success then
      let s := { s with successfulUploads := s.successfulUploads + 1,
                        totalBytes := s.totalBytes + bytes }
      if s.averageUploadTime = 0 then
        { s with averageUploadTime := uploadTime }
      else
        { s with averageUploadTime := (s.averageUploadTime + uploadTime).tdiv 2 }
    else
      { s with failedUploads := s.failedUploads + 1 }

/-- The rolling-average update as the spec states it, for comparison with
the code translations above: `new_avg = (old_avg*9 + sample)/10`, seeded
with the sample when the previous average is zero. -/
def rollingAvgSpec (oldAvg sample : Int) : Int :=
  if oldAvg = 0 then sample else (oldAvg * 9 + sample).tdiv 10

/-- C5 counterexample: the S3 service's average update is not the
`(old*9 + sample)/10` filter the claim ascribes to every subsystem.  With
a previous average of 10 and a sample of 30 the S3 code yields
`(10 + 30)/2 = 20`, while the claimed filter yields 12. -/
theorem s3_average_not_rolling_filter :
    (S3Service.updateStats true
        { totalUploads := 0, successfulUploads := 0, failedUploads := 0,
          totalBytes := 0, averageUploadTime := 10, lastUpload := 0 }
        30 1 5 true).averageUploadTime = 20 ∧
    rollingAvgSpec 10 30 = 12 ∧ (20 : Int) ≠ 12 := by
  decide

/-- C5 amended: the audio converter, image converter and downloader all
update their averages with the `(old*9 + sample)/10` filter, seeded with
the sample; the S3 service instead uses `(old + sample)/2`, also seeded
with the sample. -/
theorem rolling_average_updates (a : AudioConverterStats)
    (i : ImageConverterStats) (d : DownloaderStats) (s : S3Stats)
    (dur bytes now t : Int) :
    (AudioConverter.recordSuccess a dur).avgConversionTime =
      rollingAvgSpec a.avgConversionTime dur ∧
    (ImageConverter.updateAvgTime i dur).avgConversionTime =
      rollingAvgSpec i.avgConversionTime dur ∧
    (ImageConverter.recordVipsSuccess i dur).avgConversionTime =
      rollingAvgSpec i.avgConversionTime dur ∧
    (ImageConverter.recordFFmpegSuccess i dur).avgConversionTime =
      rollingAvgSpec i.avgConversionTime dur ∧
    (Downloader.recordSuccess d bytes dur).avgDownloadTime =
      rollingAvgSpec d.avgDownloadTime dur ∧
    (S3Service.updateStats true s t bytes now true).averageUploadTime =
      (if s.averageUploadTime = 0 then t
       else (s.averageUploadTime + t).tdiv 2) := by
  refine ⟨?_, ?_, ?_, ?_, ?_, ?_⟩
  all_goals
    simp only [AudioConverter.recordSuccess, ImageConverter.updateAvgTime,
      ImageConverter.recordVipsSuccess, ImageConverter.recordFFmpegSuccess,
      Downloader.recordSuccess, S3Service.updateStats, rollingAvgSpec,
      Bool.not_true]
  all_goals split_ifs
  all_goals simp_all

/-- C10: for both converters, `recordFailure` bumps `TotalConversions`
together with `FailedConversions`, so totals count attempts, and every
statistics operation preserves `FailedConversions ≤ TotalConversions`. -/
theorem converter_failure_counts (a : AudioConverterStats)
    (i : ImageConverterStats) (dur : Int)
    (ha : a.failedConversions ≤ a.totalConversions)
    (hi : i.failedConversions ≤ i.totalConversions) :
    (AudioConverter.recordFailure a).totalConversions = a.totalConversions + 1 ∧
    (AudioConverter.recordFailure a).failedConversions = a.failedConversions + 1 ∧
    (ImageConverter.recordFailure i).totalConversions = i.totalConversions + 1 ∧
    (ImageConverter.recordFailure i).failedConversions = i.failedConversions + 1 ∧
    (AudioConverter.recordFailure a).failedConversions ≤
      (AudioConverter.recordFailure a).totalConversions ∧
    (AudioConverter.recordSuccess a dur).failedConversions ≤
      (AudioConverter.recordSuccess a dur).totalConversions ∧
    (ImageConverter.recordFailure i).failedConversions ≤
      (ImageConverter.recordFailure i).totalConversions ∧
    (ImageConverter.recordVipsSuccess i dur).failedConversions ≤
      (ImageConverter.recordVipsSuccess i dur).totalConversions ∧
    (ImageConverter.recordFFmpegSuccess i dur).failedConversions ≤
      (ImageConverter.recordFFmpegSuccess i dur).totalConversions := by
  refine ⟨rfl, rfl, rfl, rfl, ?_, ?_, ?_, ?_, ?_⟩
  all_goals
    simp only [AudioConverter.recordFailure, AudioConverter.recordSuccess,
      ImageConverter.recordFailure, ImageConverter.recordVipsSuccess,
      ImageConverter.recordFFmpegSuccess, ImageConverter.updateAvgTime]
  all_goals try split_ifs
  all_goals simp_all
  all_goals omega

/-- Witness for the failure-count theorem at the zeroed statistics
records. -/
theorem converter_failure_counts_witness :
    (AudioConverter.recordFailure
        { totalConversions := 0, failedConversions := 0,
          avgConversionTime := 0 }).totalConversions = 0 + 1 ∧
    (ImageConverter.recordFailure
        { totalConversions := 0, failedConversions := 0,
          avgConversionTime := 0, vipsConversions := 0,
          ffmpegConversions := 0 }).failedConversions ≤
      (ImageConverter.recordFailure
        { totalConversions := 0, failedConversions := 0,
          avgConversionTime := 0, vipsConversions := 0,
          ffmpegConversions := 0 }).totalConversions := by
  have h := converter_failure_counts
    { totalConversions := 0, failedConversions := 0, avgConversionTime := 0 }
    { totalConversions := 0, failedConversions := 0, avgConversionTime := 0,
      vipsConversions := 0, ffmpegConversions := 0 }
    5 (by decide) (by decide)
  exact ⟨h.1, h.2.2.2.2.2.2.1⟩

/-! ## S3 service upload-base64 path (services/s3_service.go) -/

/-- Translation of the provider `UploadResult` restricted to the field the
service's statistics path reads (`Size`); the remaining fields (key, URL,
ETag, timings) do not influence any property below. -/
structure ProviderUploadResult where
  size : Int
deriving DecidableEq, Repr

/-- Errors the provider surfaces from `UploadBase64` (invalid base64 on
decode, or any wrapped upload failure). -/
inductive S3ProviderError where
  | invalidBase64
  | uploadFailed
deriving DecidableEq, Repr

/-- Translation of the tail of `S3Service.UploadBase64` after the provider
call `result, err := provider.UploadBase64(...)`: the very next statement
is `s.updateStats(startTime, result.Size, err == nil)`, whose argument
`result.Size` is evaluated before `updateStats` runs.  When the provider
returned an error its result pointer is nil (every error return in
`MinIOProvider.UploadBase64` is `return nil, ...`), so that argument
evaluation dereferences a nil pointer and the goroutine panics, modelled
by `GoResult.panicked`. -/
def S3Service.uploadBase64Tail (enableMetrics : Bool) (stats : S3Stats)
    (uploadTime now : Int)
    (providerResult : Except S3ProviderError ProviderUploadResult) :
    GoResult (S3Stats × Except S3ProviderError ProviderUploadResult) :=
  match providerResult with
  | .ok result =>
      .ok (S3Service.updateStats enableMetrics stats uploadTime result.size now true,
           .ok result)
  | .error _ => .panicked

/-- C9: evaluating `S3Service.UploadBase64` at a provider failure (for
example invalid base64 input) shows the call panics on the nil result
instead of returning the provider's error; the metrics flag does not save
it, because the dereference happens while building the `updateStats`
arguments. -/
theorem s3_uploadBase64_panics_on_provider_error :
    S3Service.uploadBase64Tail true
      { totalUploads := 0, successfulUploads := 0, failedUploads := 0,
        totalBytes := 0, averageUploadTime := 0, lastUpload := 0 }
      1 0 (.error .invalidBase64) = .panicked ∧
    S3Service.uploadBase64Tail false
      { totalUploads := 0, successfulUploads := 0, failedUploads := 0,
        totalBytes := 0, averageUploadTime := 0, lastUpload := 0 }
      1 0 (.error .invalidBase64) = .panicked :=
  ⟨rfl, rfl⟩

/-! ## Downloader (services/downloader.go) -/

/-- The parts of an HTTP response that `Downloader.Download` inspects:
the status code, the advertised `Content-Length` (`-1` when the server
did not send one, as in Go's `http.Response`), and the body bytes. -/
structure HTTPResponse where
  statusCode : Int
  contentLength : Int
  body : List UInt8
deriving DecidableEq, Repr

/-- Failure cases of `Downloader.Download` (request building and transport
errors are outside the embedded fragment; the cases below are the checks
the function itself performs). -/
inductive DownloadError where
  | httpStatus (code : Int)
  | contentTooLarge
  | contentExceedsMaximumSize
deriving DecidableEq, Repr

/-- Translation of `Downloader.Download` given a delivered response:
reject non-200 statuses; reject an advertised `Content-Length` above
`maxSize` before reading the body; read the body through
`io.LimitReader(body, maxSize)`; if the limited copy wrote `maxSize`
bytes, probe one extra byte from the underlying body and fail when it is
present; otherwise return the copied bytes. -/
def Downloader.download (maxSize : Int) (resp : HTTPResponse) :
    Except DownloadError (List UInt8) :=
  if resp.statusCode ≠ 200 then
    .error (.httpStatus resp.statusCode)
  else if 0 < resp.contentLength ∧ maxSize < resp.contentLength then
    .error .contentTooLarge
  else
    let limited := resp.body.take maxSize.toNat
    let written : Int := limited.length
    if maxSize ≤ written ∧ maxSize.toNat < resp.body.length then
      .error .contentExceedsMaximumSize
    else
      .ok limited

/-- C7: a successful `Downloader.Download` returns at most `maxSize`
bytes — in fact exactly the whole body, never a truncation — and when the
response reaches the body-reading stage with more than `maxSize` bytes in
the body, the call fails with the content-exceeds-maximum-size error. -/
theorem downloader_size_cap (maxSize : Int) (resp : HTTPResponse) :
    (∀ out, Downloader.download maxSize resp = .ok out →
      out.length ≤ maxSize.toNat ∧ out = resp.body) ∧
    (resp.statusCode = 200 →
      ¬(0 < resp.contentLength ∧ maxSize < resp.contentLength) →
      maxSize.toNat < resp.body.length →
      Downloader.download maxSize resp = .error .contentExceedsMaximumSize) := by
  constructor
  · intro out hok
    simp only [Downloader.download] at hok
    split_ifs at hok with h1 h2 h3
    all_goals cases hok
    have hlen : resp.body.length ≤ maxSize.toNat := by
      by_contra hgt
      push_neg at hgt
      refine h3 ⟨?_, hgt⟩
      have hw : (List.take maxSize.toNat resp.body).length = maxSize.toNat := by
        rw [List.length_take]; omega
      rw [hw]; omega
    refine ⟨?_, List.take_of_length_le hlen⟩
    rw [List.take_of_length_le hlen]
    exact hlen
  · intro h200 hcl hbig
    have hcond : maxSize ≤ ((List.take maxSize.toNat resp.body).length : Int) ∧
        maxSize.toNat < resp.body.length :=
      ⟨by rw [List.length_take]; omega, hbig⟩
    simp only [Downloader.download]
    rw [if_neg (by simp [h200]), if_neg hcl, if_pos hcond]

/-- Witness for the download size cap: with `maxSize = 2` a three-byte
body is rejected with the content-exceeds error, and a one-byte body is
returned whole. -/
theorem downloader_size_cap_witness :
    Downloader.download 2 { statusCode := 200, contentLength := -1, body := [0, 1, 2] } =
      .error .contentExceedsMaximumSize ∧
    ([7] : List UInt8).length ≤ (2 : Int).toNat := by
  refine ⟨(downloader_size_cap 2 _).2 rfl (by decide) (by decide), ?_⟩
  exact ((downloader_size_cap 2
    { statusCode := 200, contentLength := -1, body := [7] }).1 [7] rfl).1

/-! ## Image converter quality mapping (services/image_converter.go) -/

/-- Translation of the default substitution at the top of
`ImageConverter.Convert`: a requested quality outside (0, 100] is
replaced by the default 95. -/
def ImageConverter.effectiveQuality (quality : Int) : Int :=
  if quality ≤ 0 ∨ 100 < quality then 95 else quality

/-- Translation of the quality computation at the top of
`ImageConverter.convertWithFFmpeg`: `31 - quality*29/100` in Go integer
arithmetic, clamped from below at 2. -/
def ImageConverter.ffmpegQuality (quality : Int) : Int :=
  let q := 31 - (quality * 29).tdiv 100
  if q < 2 then 2 else q

/-- The quality mapping as the spec states it, for comparison:
`clamp(31 - q*29/100, 2, 31)`. -/
def ffmpegQualityClampSpec (q : Int) : Int :=
  max 2 (min 31 (31 - (q * 29).tdiv 100))

/-- C8: for every effective quality in [1, 100] the value handed to the
transcoder equals the spec's clamp of `31 - q*29/100` to [2, 31]; the
`Convert` defaulting always produces such an effective quality. -/
theorem ffmpeg_quality_matches_clamp (q q0 : Int) (h1 : 1 ≤ q) (h2 : q ≤ 100) :
    ImageConverter.ffmpegQuality q = ffmpegQualityClampSpec q ∧
    1 ≤ ImageConverter.effectiveQuality q0 ∧
    ImageConverter.effectiveQuality q0 ≤ 100 := by
  refine ⟨?_, ?_, ?_⟩
  · interval_cases q <;> decide
  · unfold ImageConverter.effectiveQuality
    split_ifs <;> omega
  · unfold ImageConverter.effectiveQuality
    split_ifs <;> omega

/-- Witness for the quality mapping at quality 50 (and an out-of-range
requested quality 0 for the defaulting clause). -/
theorem ffmpeg_quality_matches_clamp_witness :
    ImageConverter.ffmpegQuality 50 = ffmpegQualityClampSpec 50 ∧
    1 ≤ ImageConverter.effectiveQuality 0 ∧
    ImageConverter.effectiveQuality 0 ≤ 100 :=
  ffmpeg_quality_matches_clamp 50 0 (by decide) (by decide)

/-! ## MinIO provider upload retries (providers/minio.go)

The retry loop of `MinIOProvider.Upload` below its multipart-threshold
branch (`size < MultipartThreshold`).  The per-attempt `PutObject` call is
abstracted by an `outcome` oracle, the deadline by a `ctxDone` oracle
consulted where the Go code selects on `ctx.Done()` during the backoff
sleep. -/

/-- Outcome of one `PutObject` attempt. -/
inductive AttemptResult where
  | success
  | fail (retryable : Bool)
deriving DecidableEq, Repr

/-- Error returns of the retry loop, one per `return nil, NewS3Error(...)`
site: the wrapped `PutObject` error of a given attempt, the
failed-to-reset-reader error, the reader-is-not-seekable error, and the
context-deadline error. -/
inductive MinioUploadError where
  | attemptFailed (attempt : Nat)
  | seekResetFailed
  | notSeekable
  | ctxDone
  | outOfFuel
deriving DecidableEq, Repr

/-- One iteration of the Go `for attempt := 0; attempt <= retryCount`
loop, with structural fuel (the Go loop always returns within
`retryCount + 1` iterations, so fuel `retryCount + 1 - attempt` never
runs out and `outOfFuel` is unreachable).  Returns the loop's result
together with the number of `PutObject` calls performed from this
iteration on. -/
def MinIOProvider.uploadGo (retryCount : Nat) (isSeekable seekOk : Bool)
    (outcome : Nat → AttemptResult) (ctxDone : Nat → Bool) :
    Nat → Nat → Except MinioUploadError Nat × Nat
  | 0, _ => (.error .outOfFuel, 0)
  | fuel + 1, attempt =>
    if attempt ≠ 0 ∧ ¬isSeekable then (.error .notSeekable, 0)
    else if attempt ≠ 0 ∧ isSeekable ∧ ¬seekOk then (.error .seekResetFailed, 0)
    else
      match outcome attempt with
      | .success => (.ok attempt, 1)
      | .fail retryable =>
        if ¬retryable ∨ attempt = retryCount then
          (.error (.attemptFailed attempt), 1)
        else if ctxDone attempt then (.error .ctxDone, 1)
        else
          let r := MinIOProvider.uploadGo retryCount isSeekable seekOk
            outcome ctxDone fuel (attempt + 1)
          (r.1, r.2 + 1)

/-- Translation of the retry loop of `MinIOProvider.Upload` (the
below-multipart-threshold path), entered at attempt 0: on success the
succeeding attempt's index is returned; the second component counts the
`PutObject` calls made. -/
def MinIOProvider.upload (retryCount : Nat) (isSeekable seekOk : Bool)
    (outcome : Nat → AttemptResult) (ctxDone : Nat → Bool) :
    Except MinioUploadError Nat × Nat :=
  MinIOProvider.uploadGo retryCount isSeekable seekOk outcome ctxDone
    (retryCount + 1) 0

/-- C6 counterexample: with the default `retryCount = 3`, a non-seekable
reader, and a first attempt failing with a retryable error, the call makes
exactly one `PutObject` call but surfaces the reader-is-not-seekable
error, not the first attempt's error as the claim states. -/
theorem minio_nonseekable_first_error_lost :
    MinIOProvider.upload 3 false true (fun _ => .fail true) (fun _ => false) =
      (.error .notSeekable, 1) ∧
    MinioUploadError.notSeekable ≠ .attemptFailed 0 :=
  ⟨rfl, by decide⟩

/-- C6 amended: for every non-seekable reader whose first attempt fails
with a retryable error (deadline not expired, at least one retry
configured), no second `PutObject` attempt is made, and the call fails
with the reader-is-not-seekable error, discarding the first attempt's
error. -/
theorem minio_nonseekable_no_retry (retryCount : Nat) (seekOk : Bool)
    (outcome : Nat → AttemptResult) (ctxDone : Nat → Bool)
    (hfail : outcome 0 = .fail true) (hretry : 1 ≤ retryCount)
    (hctx : ctxDone 0 = false) :
    MinIOProvider.upload retryCount false seekOk outcome ctxDone =
      (.error .notSeekable, 1) := by
  obtain ⟨k, rfl⟩ : ∃ k, retryCount = k + 1 := ⟨retryCount - 1, by omega⟩
  simp [MinIOProvider.upload, MinIOProvider.uploadGo, hfail, hctx]

/-- Witness for the non-seekable no-retry theorem at the counterexample
inputs. -/
theorem minio_nonseekable_no_retry_witness :
    MinIOProvider.upload 3 false false (fun _ => .fail true) (fun _ => false) =
      (.error .notSeekable, 1) :=
  minio_nonseekable_no_retry 3 false (fun _ => .fail true) (fun _ => false)
    rfl (by decide) rfl
